import Mathlib

/-!
Verification of the client-side interactivity script `js/custom.js` of the
MOSHARRAF_HOSSEN portfolio page.  Each browser-facing behavior (contact-form
validation, theme toggle, scroll reveal, back-to-top button, word-by-word text
animation, skill-bar reveal) is embedded as a pure Lean function on an explicit
model of the relevant DOM / storage state, and the documented properties are
proved about those functions.
-/

/-! ## Email validation

`isValidEmail` in `custom.js` is
`/^[^\s@]+@[^\s@]+\.[^\s@]+$/.test(email)`.
We embed the regex as a backtracking matcher over the character list:
`okChar` is the character class `[^\s@]`, `domAux` matches `[^\s@]* \. [^\s@]+`
to the end of input, `domMatch` matches `[^\s@]+ \. [^\s@]+`, `localSearch`
matches `[^\s@]* @ [^\s@]+ \. [^\s@]+`, and `emailMatch` the whole anchored
pattern. -/

def okChar (c : Char) : Bool :=
  !c.isWhitespace && c != '@'

def domAux : List Char → Bool
  | [] => false
  | c :: cs => (c == '.' && !cs.isEmpty && cs.all okChar) || (okChar c && domAux cs)

def domMatch : List Char → Bool
  | [] => false
  | c :: cs => okChar c && domAux cs

def localSearch : List Char → Bool
  | [] => false
  | c :: cs => (c == '@' && domMatch cs) || (okChar c && localSearch cs)

def emailMatch : List Char → Bool
  | [] => false
  | c :: cs => okChar c && localSearch cs

def isValidEmail (s : String) : Bool :=
  emailMatch s.data

/-- The declarative shape the regex actually decides: the string splits as
`l ++ "@" ++ a ++ "." ++ b` with `l`, `a`, `b` non-empty and free of
whitespace and `@` (`a` and `b` may themselves contain dots). -/
def EmailShape (s : String) : Prop :=
  ∃ l a b : List Char,
    s.data = l ++ '@' :: (a ++ '.' :: b) ∧
    l ≠ [] ∧ a ≠ [] ∧ b ≠ [] ∧
    l.all okChar = true ∧ a.all okChar = true ∧ b.all okChar = true

/-- Modelled from the spec's words (section 4.4 / claim C1), for comparison with
the code's `isValidEmail`: exactly one `@`, no whitespace, a non-empty local
part, in the domain a dot with a non-empty part before the first dot, and at
least one character after the final dot. -/
def specEmailShape (s : String) : Bool :=
  let cs := s.data
  let i := cs.findIdx (· == '@')
  (cs.count '@' == 1) &&
  cs.all (fun c => !c.isWhitespace) &&
  decide (0 < i) &&
  (let d := cs.drop (i + 1)
   d.any (· == '.') &&
   decide (0 < d.findIdx (· == '.')) &&
   decide (0 < d.reverse.findIdx (· == '.')))

/-! ## Contact form submit handler

Fields are read with `form.querySelector('[name=...]')?.value.trim()`: an
absent field yields `undefined` (modelled `none`), a present one its trimmed
value.  `!x` in JS is true exactly on `undefined` and the empty string. -/

/-- JS `String.prototype.trim`: drop leading and trailing whitespace. -/
def trimChars (cs : List Char) : List Char :=
  ((cs.dropWhile Char.isWhitespace).reverse.dropWhile Char.isWhitespace).reverse

def jsTrim (s : String) : String :=
  String.mk (trimChars s.data)

structure ContactForm where
  name : Option String
  email : Option String
  message : Option String
deriving DecidableEq, Repr

structure FormFeedback where
  text : String
  color : String
deriving DecidableEq, Repr

structure SubmitResult where
  msg : FormFeedback
  form : ContactForm
deriving DecidableEq, Repr

/-- JS falsiness of `field?.value.trim()`: `undefined` or the empty string. -/
def falsyField : Option String → Bool
  | none => true
  | some s => s == ""

/-- Model of `form.reset()`: every present field returns to its (empty)
default value. -/
def resetForm (f : ContactForm) : ContactForm :=
  ⟨f.name.map (fun _ => ""), f.email.map (fun _ => ""), f.message.map (fun _ => "")⟩

/-- The `submit` listener of `#contactForm` (custom.js lines 137-162). -/
def submitHandler (f : ContactForm) : SubmitResult :=
  let name := f.name.map jsTrim
  let email := f.email.map jsTrim
  let message := f.message.map jsTrim
  if falsyField name || falsyField email || falsyField message then
    ⟨⟨"Please fill all fields!", "red"⟩, f⟩
  else if !isValidEmail (email.getD "") then
    ⟨⟨"Please enter a valid email address!", "red"⟩, f⟩
  else
    ⟨⟨"Message sent successfully!", "green"⟩, resetForm f⟩

/-! ## Theme toggle (load block and click handler) -/

structure ThemeState where
  dark : Bool
  icon : String
  pressed : String
  stored : Option String
deriving DecidableEq, Repr

/-- The load-time block of the theme component (custom.js lines 89-103):
read the saved preference; on `"dark"` apply the class, sun icon and
`aria-pressed="true"`; otherwise only set `aria-pressed="false"`. -/
def themeLoad (s : ThemeState) : ThemeState :=
  if s.stored == some "dark" then
    { s with dark := true, icon := "☀️", pressed := "true" }
  else
    { s with pressed := "false" }

/-- The click listener of `#themeToggle` (custom.js lines 109-118):
`classList.toggle('dark')` returns the new presence, icon and
`aria-pressed` follow it, and the resulting value is persisted. -/
def themeClick (s : ThemeState) : ThemeState :=
  let isDark := !s.dark
  { dark := isDark,
    icon := if isDark then "☀️" else "🌙",
    pressed := if isDark then "true" else "false",
    stored := some (if isDark then "dark" else "light") }

/-! ## Scroll reveal

One `.reveal` element is watched by an `IntersectionObserver` with
`threshold: 0.1`; while watched, a notification with intersection ratio at or
above the threshold adds the `active` class and unobserves the element. -/

structure RevealState where
  active : Bool
  watched : Bool
deriving DecidableEq, Repr

def revealThreshold : ℚ := 1 / 10

/-- One intersection notification for a reveal element (custom.js lines
201-208): only a watched element receives entries; an intersecting entry
activates it and stops the watch. -/
def revealNotify (s : RevealState) (ratio : ℚ) : RevealState :=
  if s.watched ∧ revealThreshold ≤ ratio then ⟨true, false⟩ else s

/-- Initial state installed by `observer.observe(el)`: inactive, watched. -/
def revealInit : RevealState := ⟨false, true⟩

def revealRun (l : List ℚ) : RevealState :=
  l.foldl revealNotify revealInit

/-- Number of inactive-to-active transitions along a notification trace. -/
def countActivations : RevealState → List ℚ → Nat
  | _, [] => 0
  | s, r :: rs =>
      (if (revealNotify s r).active ∧ ¬ s.active then 1 else 0) +
        countActivations (revealNotify s r) rs

/-- Number of active-to-inactive transitions along a notification trace. -/
def countDeactivations : RevealState → List ℚ → Nat
  | _, [] => 0
  | s, r :: rs =>
      (if s.active ∧ ¬ (revealNotify s r).active then 1 else 0) +
        countDeactivations (revealNotify s r) rs

/-! ## Back-to-top button -/

/-- The scroll listener (custom.js lines 244-247):
`backToTopBtn.style.display = window.scrollY > 300 ? 'block' : 'none'`. -/
def backToTopDisplay (scrollY : ℚ) : String :=
  if 300 < scrollY then "block" else "none"

/-! ## Word-by-word text reveal -/

structure WordSpan where
  className : String
  text : String
  marginRight : String
  delay : ℚ
deriving DecidableEq, Repr

/-- Split at every whitespace character, keeping (possibly empty) pieces. -/
def splitAtWs : List Char → List (List Char)
  | [] => [[]]
  | c :: cs =>
      if c.isWhitespace then [] :: splitAtWs cs
      else
        match splitAtWs cs with
        | [] => [[c]]
        | w :: ws => (c :: w) :: ws

/-- Model of `el.textContent.trim().split(/\s+/)`: on the empty (trimmed)
string JS `split` returns `[""]`; on a non-empty trimmed string it returns the
whitespace-run-separated words, with no empty pieces (splitting at every
whitespace character and dropping empty pieces collapses runs, since the
trimmed string has no leading or trailing whitespace). -/
def jsWords (text : String) : List String :=
  let t := trimChars text.data
  if t.isEmpty then [""]
  else ((splitAtWs t).filter (fun w => !w.isEmpty)).map String.mk

/-- The rebuild loop over one `[data-animate="words"]` element (custom.js
lines 271-289): the text is discarded and replaced by one `span.word` per
word, with margin `0.4rem` and animation delay `index * 0.1` seconds. -/
def wordAnimate (text : String) : List WordSpan :=
  (jsWords text).enum.map (fun p => ⟨"word", p.2, "0.4rem", (p.1 : ℚ) * (1 / 10)⟩)

/-! ## Skill-bar reveal -/

structure SkillBar where
  dataSkill : Option String
  width : Option String
deriving DecidableEq, Repr

structure SkillItem where
  bar : Option SkillBar
  active : Bool
deriving DecidableEq, Repr

/-- One entry of the skill `IntersectionObserver` callback (custom.js lines
302-315).  `skill.querySelector('.bar span')` may be `null` (modelled `none`);
the very next line reads `bar.dataset.skill` unconditionally, which throws a
`TypeError` on `null` — modelled as `Except.error`.  A missing `data-skill`
attribute interpolates as the string `"undefined"`. -/
def skillNotify (skill : SkillItem) (isIntersecting : Bool) : Except String SkillItem :=
  if !isIntersecting then .ok skill
  else
    match skill.bar with
    | none => .error "TypeError: cannot read dataset of null"
    | some bar =>
        let target := bar.dataSkill.getD "undefined"
        .ok { skill with
                active := true,
                bar := some { bar with width := some (target ++ "%") } }

/-! ## Sanity examples (concrete evaluations of the embedded code) -/

example : isValidEmail "jo@example.com" = true := by decide
example : isValidEmail "a@b" = false := by decide
example : isValidEmail "a.com" = false := by decide
example : isValidEmail "a @b.com" = false := by decide
example : isValidEmail "a@b.c." = true := by decide
example : specEmailShape "jo@example.com" = true := by decide
example : specEmailShape "a@b.c." = false := by decide
example : jsWords "  hello   world " = ["hello", "world"] := by decide
example : jsWords "   " = [""] := by decide

/-! ## Helper lemmas -/

theorem revealNotify_eq_or (s : RevealState) (r : ℚ) :
    revealNotify s r = s ∨ revealNotify s r = ⟨true, false⟩ := by
  unfold revealNotify
  split
  · exact Or.inr rfl
  · exact Or.inl rfl

theorem revealNotify_active_mono (s : RevealState) (r : ℚ) (h : s.active = true) :
    (revealNotify s r).active = true := by
  rcases revealNotify_eq_or s r with he | he <;> rw [he]
  exact h

theorem countDeactivations_eq_zero (l : List ℚ) : ∀ s, countDeactivations s l = 0 := by
  induction l with
  | nil => intro s; rfl
  | cons r rs ih =>
      intro s
      unfold countDeactivations
      have h : ¬ (s.active ∧ ¬ (revealNotify s r).active) := by
        rintro ⟨h1, h2⟩
        exact h2 (revealNotify_active_mono s r h1)
      rw [if_neg h, ih]

theorem countActivations_of_active (l : List ℚ) :
    ∀ s : RevealState, s.active = true → countActivations s l = 0 := by
  induction l with
  | nil => intro s _; rfl
  | cons r rs ih =>
      intro s hs
      unfold countActivations
      have h : ¬ ((revealNotify s r).active ∧ ¬ s.active) := by
        rintro ⟨_, h2⟩
        exact h2 hs
      rw [if_neg h, ih _ (revealNotify_active_mono s r hs)]

theorem countActivations_le_one (l : List ℚ) : ∀ s, countActivations s l ≤ 1 := by
  induction l with
  | nil => intro s; exact Nat.zero_le 1
  | cons r rs ih =>
      intro s
      unfold countActivations
      by_cases h : ((revealNotify s r).active ∧ ¬ s.active)
      · rw [if_pos h, countActivations_of_active rs _ h.1]
      · rw [if_neg h]
        exact Nat.le_trans (Nat.le_of_eq (Nat.zero_add _)) (ih _)

theorem reveal_watched_invariant (l : List ℚ) :
    ∀ s : RevealState, s.watched = !s.active →
      (l.foldl revealNotify s).watched = !(l.foldl revealNotify s).active := by
  induction l with
  | nil => intro s h; exact h
  | cons r rs ih =>
      intro s h
      rw [List.foldl_cons]
      refine ih _ ?_
      unfold revealNotify
      split
      · rfl
      · exact h

theorem domAux_iff (cs : List Char) :
    domAux cs = true ↔
      ∃ a b : List Char,
        cs = a ++ '.' :: b ∧ a.all okChar = true ∧ b ≠ [] ∧ b.all okChar = true := by
  induction cs with
  | nil =>
      constructor
      · intro h; simp [domAux] at h
      · rintro ⟨a, b, h, -, -, -⟩; cases a <;> simp at h
  | cons c cs ih =>
      simp only [domAux, Bool.or_eq_true, Bool.and_eq_true, beq_iff_eq, ih]
      constructor
      · rintro (⟨⟨rfl, hne⟩, hall⟩ | ⟨hok, a, b, rfl, ha, hb, hball⟩)
        · refine ⟨[], cs, rfl, rfl, ?_, hall⟩
          intro hcs
          rw [hcs] at hne
          simp at hne
        · exact ⟨c :: a, b, rfl, by simp [hok, ha], hb, hball⟩
      · rintro ⟨a, b, heq, ha, hb, hball⟩
        cases a with
        | nil =>
            obtain ⟨rfl, rfl⟩ : c = '.' ∧ cs = b := by simpa using heq
            refine Or.inl ⟨⟨rfl, ?_⟩, hball⟩
            cases cs with
            | nil => exact absurd rfl hb
            | cons x xs => rfl
        | cons a0 a' =>
            obtain ⟨rfl, rfl⟩ : c = a0 ∧ cs = a' ++ '.' :: b := by simpa using heq
            obtain ⟨h1, h2⟩ : okChar c = true ∧ a'.all okChar = true := by simpa using ha
            exact Or.inr ⟨h1, a', b, rfl, h2, hb, hball⟩

theorem domMatch_iff (cs : List Char) :
    domMatch cs = true ↔
      ∃ a b : List Char,
        cs = a ++ '.' :: b ∧ a ≠ [] ∧ a.all okChar = true ∧ b ≠ [] ∧ b.all okChar = true := by
  cases cs with
  | nil =>
      constructor
      · intro h; simp [domMatch] at h
      · rintro ⟨a, b, h, -, -, -, -⟩; cases a <;> simp at h
  | cons c cs =>
      simp only [domMatch, Bool.and_eq_true, domAux_iff]
      constructor
      · rintro ⟨hok, a, b, rfl, ha, hb, hball⟩
        exact ⟨c :: a, b, rfl, by simp, by simp [hok, ha], hb, hball⟩
      · rintro ⟨a, b, heq, hane, ha, hb, hball⟩
        cases a with
        | nil => exact absurd rfl hane
        | cons a0 a' =>
            obtain ⟨rfl, rfl⟩ : c = a0 ∧ cs = a' ++ '.' :: b := by simpa using heq
            obtain ⟨h1, h2⟩ : okChar c = true ∧ a'.all okChar = true := by simpa using ha
            exact ⟨h1, a', b, rfl, h2, hb, hball⟩

theorem localSearch_iff (cs : List Char) :
    localSearch cs = true ↔
      ∃ l rest : List Char,
        cs = l ++ '@' :: rest ∧ l.all okChar = true ∧ domMatch rest = true := by
  induction cs with
  | nil =>
      constructor
      · intro h; simp [localSearch] at h
      · rintro ⟨l, rest, h, -, -⟩; cases l <;> simp at h
  | cons c cs ih =>
      simp only [localSearch, Bool.or_eq_true, Bool.and_eq_true, beq_iff_eq, ih]
      constructor
      · rintro (⟨rfl, hd⟩ | ⟨hok, l, rest, rfl, hl, hd⟩)
        · exact ⟨[], cs, rfl, rfl, hd⟩
        · exact ⟨c :: l, rest, rfl, by simp [hok, hl], hd⟩
      · rintro ⟨l, rest, heq, hl, hd⟩
        cases l with
        | nil =>
            obtain ⟨rfl, rfl⟩ : c = '@' ∧ cs = rest := by simpa using heq
            exact Or.inl ⟨rfl, hd⟩
        | cons l0 l' =>
            obtain ⟨rfl, rfl⟩ : c = l0 ∧ cs = l' ++ '@' :: rest := by simpa using heq
            obtain ⟨h1, h2⟩ : okChar c = true ∧ l'.all okChar = true := by simpa using hl
            exact Or.inr ⟨h1, l', rest, rfl, h2, hd⟩

theorem emailMatch_iff (cs : List Char) :
    emailMatch cs = true ↔
      ∃ l rest : List Char,
        cs = l ++ '@' :: rest ∧ l ≠ [] ∧ l.all okChar = true ∧ domMatch rest = true := by
  cases cs with
  | nil =>
      constructor
      · intro h; simp [emailMatch] at h
      · rintro ⟨l, rest, h, -, -, -⟩; cases l <;> simp at h
  | cons c cs =>
      simp only [emailMatch, Bool.and_eq_true, localSearch_iff]
      constructor
      · rintro ⟨hok, l, rest, rfl, hl, hd⟩
        exact ⟨c :: l, rest, rfl, by simp, by simp [hok, hl], hd⟩
      · rintro ⟨l, rest, heq, hlne, hl, hd⟩
        cases l with
        | nil => exact absurd rfl hlne
        | cons l0 l' =>
            obtain ⟨rfl, rfl⟩ : c = l0 ∧ cs = l' ++ '@' :: rest := by simpa using heq
            obtain ⟨h1, h2⟩ : okChar c = true ∧ l'.all okChar = true := by simpa using hl
            exact ⟨h1, l', rest, rfl, h2, hd⟩

theorem isValidEmail_iff_shape (s : String) : isValidEmail s = true ↔ EmailShape s := by
  unfold isValidEmail EmailShape
  rw [emailMatch_iff]
  constructor
  · rintro ⟨l, rest, heq, hlne, hl, hd⟩
    rw [domMatch_iff] at hd
    obtain ⟨a, b, rfl, hane, ha, hb, hball⟩ := hd
    exact ⟨l, a, b, heq, hlne, hane, hb, hl, ha, hball⟩
  · rintro ⟨l, a, b, heq, hlne, hane, hbne, hl, ha, hball⟩
    refine ⟨l, a ++ '.' :: b, heq, hlne, hl, ?_⟩
    rw [domMatch_iff]
    exact ⟨a, b, rfl, hane, ha, hbne, hball⟩

theorem submitHandler_cases (f : ContactForm) :
    submitHandler f = ⟨⟨"Please fill all fields!", "red"⟩, f⟩ ∨
    submitHandler f = ⟨⟨"Please enter a valid email address!", "red"⟩, f⟩ ∨
    submitHandler f = ⟨⟨"Message sent successfully!", "green"⟩, resetForm f⟩ := by
  simp only [submitHandler]
  split
  · exact Or.inl rfl
  · split
    · exact Or.inr (Or.inl rfl)
    · exact Or.inr (Or.inr rfl)

/-! ## Claim theorems -/

/-- C2: whenever at least one of the three fields is empty after trimming
(an absent field counting as empty), the submit handler shows the red
"fill all fields" message and never the success message. -/
theorem submit_empty_field_shows_fill_all (f : ContactForm)
    (h : falsyField (f.name.map jsTrim) = true ∨
         falsyField (f.email.map jsTrim) = true ∨
         falsyField (f.message.map jsTrim) = true) :
    (submitHandler f).msg = ⟨"Please fill all fields!", "red"⟩ ∧
    (submitHandler f).msg ≠ ⟨"Message sent successfully!", "green"⟩ := by
  have hcond : (falsyField (f.name.map jsTrim) || falsyField (f.email.map jsTrim) ||
      falsyField (f.message.map jsTrim)) = true := by
    rcases h with h | h | h <;> simp [h]
  refine ⟨?_, ?_⟩ <;> simp [submitHandler, hcond]

/-- C2 witness: a concrete submission with an empty name field shows the
"fill all fields" message and not the success message. -/
theorem submit_empty_field_shows_fill_all_witness :
    (submitHandler ⟨some "  ", some "jo@example.com", some "hi"⟩).msg =
      ⟨"Please fill all fields!", "red"⟩ ∧
    (submitHandler ⟨some "  ", some "jo@example.com", some "hi"⟩).msg ≠
      ⟨"Message sent successfully!", "green"⟩ :=
  submit_empty_field_shows_fill_all ⟨some "  ", some "jo@example.com", some "hi"⟩
    (Or.inl (by decide))

/-- C3: when all three trimmed fields are non-empty and the email passes the
shape check, the green success message is shown and the form is cleared. -/
theorem submit_valid_shows_success (f : ContactForm)
    (h1 : falsyField (f.name.map jsTrim) = false)
    (h2 : falsyField (f.email.map jsTrim) = false)
    (h3 : falsyField (f.message.map jsTrim) = false)
    (h4 : isValidEmail ((f.email.map jsTrim).getD "") = true) :
    (submitHandler f).msg = ⟨"Message sent successfully!", "green"⟩ ∧
    (submitHandler f).form = resetForm f := by
  have hcond : (falsyField (f.name.map jsTrim) || falsyField (f.email.map jsTrim) ||
      falsyField (f.message.map jsTrim)) = false := by
    simp [h1, h2, h3]
  refine ⟨?_, ?_⟩ <;> simp [submitHandler, hcond, h4]

/-- C3 witness: `name="Jo"`, `email="jo@example.com"`, `message="hi"` yields
the success message and cleared fields. -/
theorem submit_valid_shows_success_witness :
    (submitHandler ⟨some "Jo", some "jo@example.com", some "hi"⟩).msg =
      ⟨"Message sent successfully!", "green"⟩ ∧
    (submitHandler ⟨some "Jo", some "jo@example.com", some "hi"⟩).form =
      resetForm ⟨some "Jo", some "jo@example.com", some "hi"⟩ :=
  submit_valid_shows_success ⟨some "Jo", some "jo@example.com", some "hi"⟩
    (by decide) (by decide) (by decide) (by decide)

/-- C10: on any failed submission the form's field values are left unchanged
(the handler returns before `form.reset()`); the fields are cleared exactly
when validation fully succeeds, i.e. when the success message is shown. -/
theorem submit_failure_preserves_fields (f : ContactForm) :
    ((submitHandler f).msg ≠ ⟨"Message sent successfully!", "green"⟩ →
      (submitHandler f).form = f) ∧
    ((submitHandler f).msg = ⟨"Message sent successfully!", "green"⟩ →
      (submitHandler f).form = resetForm f) := by
  rcases submitHandler_cases f with h | h | h <;> rw [h]
  · exact ⟨fun _ => rfl, fun hm => by simp at hm⟩
  · exact ⟨fun _ => rfl, fun hm => by simp at hm⟩
  · exact ⟨fun hm => absurd rfl hm, fun _ => rfl⟩

/-- C10 witness: a failed submission (invalid email) leaves the concrete
form's fields untouched. -/
theorem submit_failure_preserves_fields_witness :
    (submitHandler ⟨some "Jo", some "a@b", some "hi"⟩).form =
      ⟨some "Jo", some "a@b", some "hi"⟩ :=
  (submit_failure_preserves_fields ⟨some "Jo", some "a@b", some "hi"⟩).1 (by decide)

/-- C5 counterexample: starting from a page state whose preference key is
absent (a first visit), two theme-toggle clicks restore the body class but
store `"light"`, so the stored key does not return to its originally stored
value — the claim fails as stated. -/
theorem theme_double_toggle_counterexample :
    (themeClick (themeClick ⟨false, "🌙", "false", none⟩)).dark = false ∧
    (themeClick (themeClick ⟨false, "🌙", "false", none⟩)).stored ≠ none := by
  decide

/-- C5 (amended): two theme-toggle clicks restore the body's visual class,
and leave the stored key at the value matching that class (`"dark"` when the
body was originally dark, else `"light"`); in particular, whenever the
originally stored value already matched the body class, it is restored. -/
theorem theme_double_toggle (s : ThemeState) :
    (themeClick (themeClick s)).dark = s.dark ∧
    (themeClick (themeClick s)).stored = some (if s.dark then "dark" else "light") ∧
    (s.stored = some (if s.dark then "dark" else "light") →
      (themeClick (themeClick s)).stored = s.stored) := by
  obtain ⟨d, i, p, st⟩ := s
  cases d <;> simp [themeClick] <;> exact fun h => h.symm

/-- C5 witness: from a consistent light state storing `"light"`, two clicks
restore the stored value. -/
theorem theme_double_toggle_witness :
    (themeClick (themeClick ⟨false, "🌙", "false", some "light"⟩)).stored = some "light" :=
  (theme_double_toggle ⟨false, "🌙", "false", some "light"⟩).2.2 (by decide)

/-- C7: at load, a stored `"dark"` preference applies the dark class, the
light-mode glyph and `aria-pressed="true"`; any other stored value (including
an absent key) only sets `aria-pressed="false"`, keeping the appearance. -/
theorem theme_load_applies_saved (s : ThemeState) :
    (s.stored = some "dark" →
      themeLoad s = { s with dark := true, icon := "☀️", pressed := "true" }) ∧
    (s.stored ≠ some "dark" →
      themeLoad s = { s with pressed := "false" }) := by
  constructor <;> intro h
  · simp [themeLoad, h]
  · have hb : (s.stored == some "dark") = false := beq_eq_false_iff_ne.mpr h
    simp [themeLoad, hb]

/-- C7 witness: with stored `"dark"` the dark state is applied; with an
absent key only `aria-pressed="false"` is set. -/
theorem theme_load_applies_saved_witness :
    themeLoad ⟨false, "🌙", "", some "dark"⟩ = ⟨true, "☀️", "true", some "dark"⟩ ∧
    themeLoad ⟨false, "🌙", "", none⟩ = ⟨false, "🌙", "false", none⟩ :=
  ⟨(theme_load_applies_saved ⟨false, "🌙", "", some "dark"⟩).1 (by decide),
   (theme_load_applies_saved ⟨false, "🌙", "", none⟩).2 (by decide)⟩

/-- C8: after any scroll event the back-to-top button's display is a pure
function of the offset: visible exactly when the offset exceeds 300 pixels. -/
theorem back_to_top_threshold (y : ℚ) :
    (300 < y → backToTopDisplay y = "block") ∧
    (y ≤ 300 → backToTopDisplay y = "none") := by
  constructor <;> intro h <;> unfold backToTopDisplay
  · rw [if_pos h]
  · rw [if_neg (not_lt.mpr h)]

/-- C8 witness: an offset of exactly 301 shows the button and an offset of
exactly 300 hides it. -/
theorem back_to_top_threshold_witness :
    backToTopDisplay 301 = "block" ∧ backToTopDisplay 300 = "none" :=
  ⟨(back_to_top_threshold 301).1 (by norm_num),
   (back_to_top_threshold 300).2 (by norm_num)⟩

/-- C4: over any sequence of intersection-ratio notifications, a reveal
element transitions to active at most once, never transitions back to
inactive, and is watched exactly while it is not yet active (once active it
is unobserved, so the activation fires at most once). -/
theorem reveal_fires_at_most_once (l : List ℚ) :
    countActivations revealInit l ≤ 1 ∧
    countDeactivations revealInit l = 0 ∧
    (revealRun l).watched = !(revealRun l).active := by
  refine ⟨countActivations_le_one l revealInit,
          countDeactivations_eq_zero l revealInit,
          reveal_watched_invariant l revealInit rfl⟩

/-- C6: the skill-bar intersection handler dereferences
`skill.querySelector('.bar span')` without a guard; on a skill item with no
`.bar span` descendant an intersecting entry makes the handler throw a
`TypeError` instead of disabling the feature. -/
theorem skill_bar_missing_span_throws :
    skillNotify ⟨none, false⟩ true =
      Except.error "TypeError: cannot read dataset of null" ∧
    skillNotify ⟨some ⟨some "90", none⟩, false⟩ true =
      Except.ok ⟨some ⟨some "90", some "90%"⟩, true⟩ :=
  ⟨rfl, rfl⟩

/-- C1 counterexample: `"a@b.c."` has no character after its final dot, so it
lacks the shape the claim describes (`specEmailShape`, built from the spec's
words, rejects it), yet the code's check accepts it: the regex only needs some
dot with non-empty surroundings, and matches `b` `.` `c.`. -/
theorem email_check_counterexample :
    isValidEmail "a@b.c." = true ∧ specEmailShape "a@b.c." = false := by
  decide

/-- C1 (amended): the email check accepts a string iff it splits as
`local@x.y` with `local`, `x`, `y` non-empty and free of whitespace and `@`
(`x` and `y` may contain further dots, so a character is required after some
dot of the domain, not after the final one); and a submission whose trimmed
fields are all non-empty but whose email fails the check shows the red
"invalid email" message. -/
theorem email_check_characterization :
    (∀ s : String, isValidEmail s = true ↔ EmailShape s) ∧
    (∀ f : ContactForm,
      falsyField (f.name.map jsTrim) = false →
      falsyField (f.email.map jsTrim) = false →
      falsyField (f.message.map jsTrim) = false →
      isValidEmail ((f.email.map jsTrim).getD "") = false →
      (submitHandler f).msg = ⟨"Please enter a valid email address!", "red"⟩) := by
  constructor
  · exact isValidEmail_iff_shape
  · intro f h1 h2 h3 h4
    have hcond : (falsyField (f.name.map jsTrim) || falsyField (f.email.map jsTrim) ||
        falsyField (f.message.map jsTrim)) = false := by
      simp [h1, h2, h3]
    simp [submitHandler, hcond, h4]

/-- C1 witness: a well-formed concrete email has the shape, and a concrete
submission with the ill-formed email `"a@b"` shows the invalid-email
message. -/
theorem email_check_characterization_witness :
    EmailShape "jo@example.com" ∧
    (submitHandler ⟨some "Jo", some "a@b", some "hi"⟩).msg =
      ⟨"Please enter a valid email address!", "red"⟩ :=
  ⟨(email_check_characterization.1 "jo@example.com").mp (by decide),
   email_check_characterization.2 ⟨some "Jo", some "a@b", some "hi"⟩
     (by decide) (by decide) (by decide) (by decide)⟩

/-- C9: a word-animated element is rebuilt as exactly one `span.word` per
word of its whitespace-split text, the span at position `i` carrying the
fixed `0.4rem` right margin and an animation delay of `i * 0.1` seconds. -/
theorem word_animation_spans (text : String) :
    (wordAnimate text).length = (jsWords text).length ∧
    ∀ i : Nat, i < (wordAnimate text).length →
      (wordAnimate text).getD i ⟨"", "", "", 0⟩ =
        ⟨"word", (jsWords text).getD i "", "0.4rem", (i : ℚ) * (1 / 10)⟩ := by
  constructor
  · simp [wordAnimate]
  · intro i hi
    have hlen : i < (jsWords text).length := by simpa [wordAnimate] using hi
    rw [List.getD_eq_getElem _ _ hi, List.getD_eq_getElem _ _ hlen]
    simp [wordAnimate]

/-- C9 witness: on the concrete text `"hello   world"` the element is rebuilt
as two spans; word 0 gets delay `0 * 0.1 = 0` and word 1 gets delay
`1 * 0.1`. -/
theorem word_animation_spans_witness :
    (wordAnimate "hello   world").getD 0 ⟨"", "", "", 0⟩ =
      ⟨"word", (jsWords "hello   world").getD 0 "", "0.4rem", (0 : ℚ) * (1 / 10)⟩ ∧
    (wordAnimate "hello   world").getD 1 ⟨"", "", "", 0⟩ =
      ⟨"word", (jsWords "hello   world").getD 1 "", "0.4rem", (1 : ℚ) * (1 / 10)⟩ :=
  ⟨(word_animation_spans "hello   world").2 0 (by decide),
   (word_animation_spans "hello   world").2 1 (by decide)⟩
